import Mathlib

/-!
# Verification of the wgpu-native handle-registry layer (`src/device.rs`)

A shallow embedding of the externally invoked entry points of `src/device.rs`:
the typed handle registries, the device/queue state, and the creation and
submission operations. Registries are embedded as association lists with a
fresh-handle counter; the GPU backend (gfx-hal) is an explicit parameter
(`Backend`) whose creation calls are recorded in a trace, so that "exactly one
backend creation call" and failure-atomicity properties can be stated.
Raw backend objects are opaque and represented by `Nat`.

`panic`/`unimplemented!`/`unwrap`-failure paths are embedded as `none` results
carrying the (unchanged) state at the abort point.
-/

set_option autoImplicit false

namespace Wgpu

/-- Reading a C `(pointer, length)` array: `slice::from_raw_parts(ptr, len)`
reads exactly the elements at offsets `0 .. len-1`.  A raw pointer is embedded
as a total map from offsets to elements. -/
def readArray {α : Type} (ptr : Nat → α) (len : Nat) : List α :=
  (List.range len).map ptr

/-! ## Pure descriptor-to-backend mappings (`conv`)

The `conv` module is not part of `src/`; the spec (§1, §6) declares
descriptor-to-backend-state translation "pure data mapping, not core".
Modelled from the spec: each `conv::map_*` function is embedded as an
injective tagging of its input, so theorems can state *which* input a
backend field was mapped from without fixing the conversion table. -/

/-- Modelled from the spec: opaque result of `conv::map_binding_type`. -/
structure HalBindingType where
  ofDescriptor : Nat
  deriving DecidableEq, Repr

/-- Modelled from the spec: opaque result of `conv::map_shader_stage_flags`. -/
structure HalShaderStageFlags where
  ofDescriptor : Nat
  deriving DecidableEq, Repr

/-- Modelled from the spec: opaque result of `conv::map_texture_format`. -/
structure HalTextureFormat where
  ofDescriptor : Nat
  deriving DecidableEq, Repr

/-- Modelled from the spec: opaque result of `conv::map_blend_state_descriptor`. -/
structure HalBlendState where
  ofDescriptor : Nat
  deriving DecidableEq, Repr

/-- Modelled from the spec: opaque result of `conv::map_depth_stencil_state`. -/
structure HalDepthStencilState where
  ofDescriptor : Nat
  deriving DecidableEq, Repr

/-- Modelled from the spec: opaque result of `conv::map_primitive_topology`. -/
structure HalPrimitive where
  ofDescriptor : Nat
  deriving DecidableEq, Repr

def map_binding_type (ty : Nat) : HalBindingType := ⟨ty⟩
def map_shader_stage_flags (visibility : Nat) : HalShaderStageFlags := ⟨visibility⟩
def map_texture_format (format : Nat) : HalTextureFormat := ⟨format⟩
def map_blend_state_descriptor (desc : Nat) : HalBlendState := ⟨desc⟩
def map_depth_stencil_state (desc : Nat) : HalDepthStencilState := ⟨desc⟩
def map_primitive_topology (topology : Nat) : HalPrimitive := ⟨topology⟩

/-! ## Backend (gfx-hal) argument structures, as assembled by `device.rs` -/

/-- Embeds `hal::pso::DescriptorSetLayoutBinding`, as built in
`wgpu_device_create_bind_group_layout` (src/device.rs:49-55). -/
structure DescriptorSetLayoutBinding where
  binding : Nat
  ty : HalBindingType
  count : Nat
  stage_flags : HalShaderStageFlags
  immutable_samplers : Bool
  deriving DecidableEq, Repr

inductive AttachmentLoadOp | Clear | Load | DontCare
  deriving DecidableEq, Repr

inductive AttachmentStoreOp | Store | DontCare
  deriving DecidableEq, Repr

structure AttachmentOps where
  load : AttachmentLoadOp
  store : AttachmentStoreOp
  deriving DecidableEq, Repr

inductive ImageLayout | Undefined | Present | ColorAttachmentOptimal
  deriving DecidableEq, Repr

/-- Embeds `hal::pass::Attachment`, as built in
`wgpu_device_create_attachment_state` (src/device.rs:169-183). -/
structure HalAttachment where
  format : Option HalTextureFormat
  samples : Nat
  ops : AttachmentOps
  stencil_ops : AttachmentOps
  layouts : ImageLayout × ImageLayout
  deriving DecidableEq, Repr

/-- Embeds `hal::pso::EntryPoint` (src/device.rs:213-224); the `specialization`
field is the constant empty specialization in the source and is omitted.
`module` is the raw backend shader-module object. -/
structure EntryPoint where
  entry : String
  module : Nat
  deriving DecidableEq, Repr

/-- Embeds `hal::pso::GraphicsShaderSet` (src/device.rs:236-242); `hull`, `domain`
and `geometry` are the constant `None` in the source. -/
structure GraphicsShaderSet where
  vertex : EntryPoint
  hull : Option EntryPoint
  domain : Option EntryPoint
  geometry : Option EntryPoint
  fragment : Option EntryPoint
  deriving DecidableEq, Repr

/-- The varying fields of `hal::pso::GraphicsPipelineDesc`
(src/device.rs:340-354).  `rasterizer`, `vertex_buffers`, `attributes`,
`primitive_restart`, `multisampling`, `baked_states`, `flags` and `parent`
are compile-time constants in the source and are omitted; `renderPass` is
the raw render pass used as `subpass.main_pass`. -/
structure GraphicsPipelineDesc where
  shaders : GraphicsShaderSet
  primitive : HalPrimitive
  blendTargets : List HalBlendState
  depth_stencil : HalDepthStencilState
  layout : Nat
  renderPass : Nat
  deriving DecidableEq, Repr

/-- One backend creation call, with the arguments `device.rs` assembles
for it (spec §6 lists exactly these five collaborator calls). -/
inductive BackendCall
  | createDescriptorSetLayout (bindings : List DescriptorSetLayoutBinding)
  | createPipelineLayout (set_layouts : List Nat)
  | createShaderModule (code : List Nat)
  | createRenderPass (attachments : List HalAttachment)
  | createGraphicsPipeline (desc : GraphicsPipelineDesc)
  deriving DecidableEq, Repr

/-- The backend device, an external collaborator (spec §6).  Raw backend
objects are `Nat`.  `create_shader_module` and `create_graphics_pipeline`
are fallible (their results are `.unwrap()`ed in the source,
src/device.rs:113 and 359); the other three return objects directly. -/
structure Backend where
  createDescriptorSetLayout : List DescriptorSetLayoutBinding → Nat
  createPipelineLayout : List Nat → Nat
  createShaderModule : List Nat → Option Nat
  createRenderPass : List HalAttachment → Nat
  createGraphicsPipeline : GraphicsPipelineDesc → Option Nat

/-! ## External descriptors (caller-owned, arrays as pointer+length) -/

/-- A `binding_model::Binding` element of a bind-group-layout descriptor.
Modelled from the spec: `binding_model.rs` is not in `src/`; the fields are
exactly those read by src/device.rs:50-53. `ty` and `visibility` are opaque. -/
structure BindGroupLayoutBinding where
  binding : Nat
  ty : Nat
  visibility : Nat
  deriving DecidableEq, Repr

/-- Embeds `binding_model::BindGroupLayoutDescriptor` (src/device.rs:44). -/
structure BindGroupLayoutDescriptor where
  bindings : Nat → BindGroupLayoutBinding
  bindings_length : Nat

/-- Embeds `binding_model::PipelineLayoutDescriptor` (src/device.rs:71). -/
structure PipelineLayoutDescriptor where
  bind_group_layouts : Nat → Nat
  bind_group_layouts_length : Nat

/-- The `code` byte array of `pipeline::ShaderModuleDescriptor`
(src/device.rs:112). -/
structure ByteArray0 where
  bytes : Nat → Nat
  length : Nat

structure ShaderModuleDescriptor where
  code : ByteArray0

/-- Embeds `pipeline::AttachmentStateDescriptor` (src/device.rs:166): a
pointer+length array of texture formats (opaque). -/
structure AttachmentStateDescriptor where
  formats : Nat → Nat
  formats_length : Nat

inductive ShaderStage | Vertex | Fragment | Compute
  deriving DecidableEq, Repr

/-- Embeds `pipeline::PipelineStageDescriptor` (src/device.rs:208-233): a shader
stage reference.  `entry_point` is embedded as the decoded string. -/
structure PipelineStageDescriptor where
  module : Nat
  stage : ShaderStage
  entry_point : String
  deriving DecidableEq, Repr

/-- Embeds `pipeline::RenderPipelineDescriptor` as read by
`wgpu_device_create_render_pipeline` (src/device.rs:189-362). -/
structure RenderPipelineDescriptor where
  layout : Nat
  stages : Nat → PipelineStageDescriptor
  stages_length : Nat
  primitive_topology : Nat
  blend_state : Nat → Nat
  blend_state_length : Nat
  depth_stencil_state : Nat
  attachment_state : Nat

/-! ## Registries

Modelled from the spec (§4.1): `registry.rs` is not in `src/`.  A registry
is a lock-guarded table from handles to owned objects with `register`
(fresh handle), `get` (fatal on a dead handle), `get_mut`/write-back, and
`take` (remove and return).  Embedded as an association list plus a
fresh-handle counter; fatal stale-handle dereference is `none`. -/

def assocGet {α : Type} (id : Nat) : List (Nat × α) → Option α
  | [] => none
  | (k, v) :: rest => if k = id then some v else assocGet id rest

structure Registry (α : Type) where
  next : Nat
  items : List (Nat × α)
  deriving DecidableEq, Repr

namespace Registry

variable {α : Type}

def get (r : Registry α) (id : Nat) : Option α :=
  assocGet id r.items

def register (r : Registry α) (value : α) : Nat × Registry α :=
  (r.next, ⟨r.next + 1, (r.next, value) :: r.items⟩)

def take (r : Registry α) (id : Nat) : Option (α × Registry α) :=
  match assocGet id r.items with
  | none => none
  | some v => some (v, ⟨r.next, r.items.filter (fun p => p.1 != id)⟩)

/-- Write-back of an exclusively borrowed entry (`get_mut` guard drop). -/
def update (r : Registry α) (id : Nat) (value : α) : Registry α :=
  ⟨r.next, r.items.map (fun p => if p.1 = id then (id, value) else p)⟩

end Registry

/-! ## Stored objects and the global state -/

structure CommandBuffer where
  raw : Nat
  deriving DecidableEq, Repr

/-- Embeds `command::CommandAllocator` submission tracking (spec §4.2): buffers
handed back by `submit` pending completion. -/
structure CommandAllocator where
  pending : List CommandBuffer
  deriving DecidableEq, Repr

def CommandAllocator.submit (a : CommandAllocator) (cb : CommandBuffer) : CommandAllocator :=
  ⟨a.pending ++ [cb]⟩

/-- Embeds `Device<B>` (src/device.rs:13-18): the raw backend device, the queue
group (embedded as the ordered list of raw command buffers submitted to
`queues[0]`), and the command allocator.  The memory sub-allocator is out
of scope (spec §1). -/
structure Device where
  raw : Nat
  queueSubmitted : List Nat
  com_allocator : CommandAllocator
  deriving DecidableEq, Repr

structure BindGroupLayout where
  raw : Nat
  deriving DecidableEq, Repr

structure PipelineLayout where
  raw : Nat
  deriving DecidableEq, Repr

structure BlendState where
  raw : HalBlendState
  deriving DecidableEq, Repr

structure DepthStencilState where
  raw : HalDepthStencilState
  deriving DecidableEq, Repr

structure ShaderModule where
  raw : Nat
  deriving DecidableEq, Repr

structure AttachmentState where
  raw : List HalAttachment
  deriving DecidableEq, Repr

structure RenderPipeline where
  raw : Nat
  deriving DecidableEq, Repr

/-- The global registries (`registry::*_REGISTRY` statics). -/
structure WgpuState where
  devices : Registry Device
  bindGroupLayouts : Registry BindGroupLayout
  pipelineLayouts : Registry PipelineLayout
  blendStates : Registry BlendState
  depthStencilStates : Registry DepthStencilState
  shaderModules : Registry ShaderModule
  attachmentStates : Registry AttachmentState
  renderPipelines : Registry RenderPipeline
  commandBuffers : Registry CommandBuffer
  deriving DecidableEq, Repr

/-- Result of a creation entry point: the returned handle (`none` on the
fatal path), the global state when the call returns or aborts, and the
trace of backend creation calls made. -/
abbrev CreateResult := Option Nat × WgpuState × List BackendCall

/-! ## Entry points -/

/-- The backend bindings assembled at src/device.rs:48-56: note
`count: bindings.len()` — the *total* number of bindings. -/
def dslBindingsOf (bindings : List BindGroupLayoutBinding) : List DescriptorSetLayoutBinding :=
  bindings.map (fun b =>
    { binding := b.binding
      ty := map_binding_type b.ty
      count := bindings.length
      stage_flags := map_shader_stage_flags b.visibility
      immutable_samplers := false })

/-- Embeds `wgpu_device_create_bind_group_layout` (src/device.rs:39-62). -/
def wgpu_device_create_bind_group_layout (B : Backend) (s : WgpuState)
    (device_id : Nat) (desc : BindGroupLayoutDescriptor) : CreateResult :=
  let bindings := readArray desc.bindings desc.bindings_length
  match s.devices.get device_id with
  | none => (none, s, [])
  | some _device =>
    let raw := B.createDescriptorSetLayout (dslBindingsOf bindings)
    let (id, r) := s.bindGroupLayouts.register { raw }
    (some id, { s with bindGroupLayouts := r },
      [BackendCall.createDescriptorSetLayout (dslBindingsOf bindings)])

/-- Collect `registry.get` over a list of handles; a stale handle is fatal
for the whole call. -/
def collectAll {α : Type} (f : Nat → Option α) : List Nat → Option (List α)
  | [] => some []
  | i :: is =>
    match f i, collectAll f is with
    | some a, some rest => some (a :: rest)
    | _, _ => none

/-- Embeds `wgpu_device_create_pipeline_layout` (src/device.rs:64-82). -/
def wgpu_device_create_pipeline_layout (B : Backend) (s : WgpuState)
    (device_id : Nat) (desc : PipelineLayoutDescriptor) : CreateResult :=
  let ids := readArray desc.bind_group_layouts desc.bind_group_layouts_length
  match collectAll (fun i => s.bindGroupLayouts.get i) ids with
  | none => (none, s, [])
  | some layouts =>
    match s.devices.get device_id with
    | none => (none, s, [])
    | some _device =>
      let rawLayouts := layouts.map (fun l => l.raw)
      let raw := B.createPipelineLayout rawLayouts
      let (id, r) := s.pipelineLayouts.register { raw }
      (some id, { s with pipelineLayouts := r },
        [BackendCall.createPipelineLayout rawLayouts])

/-- Embeds `wgpu_device_create_blend_state` (src/device.rs:84-92): pure mapping
plus register; the device id is unused and no backend call is made. -/
def wgpu_device_create_blend_state (s : WgpuState)
    (_device_id : Nat) (desc : Nat) : CreateResult :=
  let (id, r) := s.blendStates.register { raw := map_blend_state_descriptor desc }
  (some id, { s with blendStates := r }, [])

/-- Embeds `wgpu_device_create_depth_stencil_state` (src/device.rs:94-102). -/
def wgpu_device_create_depth_stencil_state (s : WgpuState)
    (_device_id : Nat) (desc : Nat) : CreateResult :=
  let (id, r) := s.depthStencilStates.register { raw := map_depth_stencil_state desc }
  (some id, { s with depthStencilStates := r }, [])

/-- Embeds `wgpu_device_create_shader_module` (src/device.rs:104-115); the
backend result is `.unwrap()`ed, so a backend failure aborts before any
registration. -/
def wgpu_device_create_shader_module (B : Backend) (s : WgpuState)
    (device_id : Nat) (desc : ShaderModuleDescriptor) : CreateResult :=
  match s.devices.get device_id with
  | none => (none, s, [])
  | some _device =>
    let code := readArray desc.code.bytes desc.code.length
    match B.createShaderModule code with
    | none => (none, s, [BackendCall.createShaderModule code])
    | some raw =>
      let (id, r) := s.shaderModules.register { raw }
      (some id, { s with shaderModules := r }, [BackendCall.createShaderModule code])

/-- The attachment built for one descriptor format
(src/device.rs:169-183). -/
def mkAttachment (format : Nat) : HalAttachment :=
  { format := some (map_texture_format format)
    samples := 1
    ops := { load := AttachmentLoadOp.Clear, store := AttachmentStoreOp.Store }
    stencil_ops := { load := AttachmentLoadOp.DontCare, store := AttachmentStoreOp.DontCare }
    layouts := (ImageLayout.Undefined, ImageLayout.Present) }

/-- Embeds `wgpu_device_create_attachment_state` (src/device.rs:161-186): maps
each descriptor format to an attachment and registers the collection; the
device id is unused and no backend call is made. -/
def wgpu_device_create_attachment_state (s : WgpuState)
    (_device_id : Nat) (desc : AttachmentStateDescriptor) : CreateResult :=
  let attachments := (readArray desc.formats desc.formats_length).map mkAttachment
  let (id, r) := s.attachmentStates.register { raw := attachments }
  (some id, { s with attachmentStates := r }, [])

/-- The stage-collection loop of `wgpu_device_create_render_pipeline`
(src/device.rs:205-234): each stage resolves its shader-module handle and
fills the vertex/fragment slot; a `Compute` stage hits `unimplemented!()`
(fatal). The accumulator is `(vertex?, fragment?)`. -/
def collectStages (sm : Registry ShaderModule) :
    List PipelineStageDescriptor → Option EntryPoint × Option EntryPoint →
    Option (Option EntryPoint × Option EntryPoint)
  | [], acc => some acc
  | st :: rest, (v, f) =>
    match sm.get st.module with
    | none => none
    | some m =>
      let entry : EntryPoint := { entry := st.entry_point, module := m.raw }
      match st.stage with
      | ShaderStage.Vertex => collectStages sm rest (some entry, f)
      | ShaderStage.Fragment => collectStages sm rest (v, some entry)
      | ShaderStage.Compute => none

/-- Embeds `wgpu_device_create_render_pipeline` (src/device.rs:188-362): resolves
the pipeline-layout, shader-stage, blend-state, depth-stencil-state and
attachment-state handles, builds a render pass from the attachment-state's
attachments, compiles the graphics pipeline (fallible, `.unwrap()`ed) and
registers it. -/
def wgpu_device_create_render_pipeline (B : Backend) (s : WgpuState)
    (device_id : Nat) (desc : RenderPipelineDescriptor) : CreateResult :=
  match s.devices.get device_id with
  | none => (none, s, [])
  | some _device =>
  match s.pipelineLayouts.get desc.layout with
  | none => (none, s, [])
  | some layout =>
  match collectStages s.shaderModules
      (readArray desc.stages desc.stages_length) (none, none) with
  | none => (none, s, [])
  | some (vertexSlot, fragment) =>
  match vertexSlot with
  | none => (none, s, [])
  | some vertex =>
  match collectAll (fun i => s.blendStates.get i)
      (readArray desc.blend_state desc.blend_state_length) with
  | none => (none, s, [])
  | some blendStates =>
  match s.depthStencilStates.get desc.depth_stencil_state with
  | none => (none, s, [])
  | some depthStencil =>
  match s.attachmentStates.get desc.attachment_state with
  | none => (none, s, [])
  | some attachmentState =>
    let renderPass := B.createRenderPass attachmentState.raw
    let pipelineDesc : GraphicsPipelineDesc :=
      { shaders := { vertex, hull := none, domain := none, geometry := none, fragment }
        primitive := map_primitive_topology desc.primitive_topology
        blendTargets := blendStates.map (fun b => b.raw)
        depth_stencil := depthStencil.raw
        layout := layout.raw
        renderPass := renderPass }
    match B.createGraphicsPipeline pipelineDesc with
    | none => (none, s,
        [BackendCall.createRenderPass attachmentState.raw,
         BackendCall.createGraphicsPipeline pipelineDesc])
    | some raw =>
      let (id, r) := s.renderPipelines.register { raw }
      (some id, { s with renderPipelines := r },
        [BackendCall.createRenderPass attachmentState.raw,
         BackendCall.createGraphicsPipeline pipelineDesc])

/-- Embeds `wgpu_device_get_queue` (src/device.rs:127-132): the queue handle is
the device handle. -/
def wgpu_device_get_queue (device_id : Nat) : Nat :=
  device_id

/-- One observable step of `wgpu_queue_submit`'s per-command-buffer loop. -/
inductive SubmitEvent
  | takeCmdBuf (id : Nat)
  | submitRaw (id : Nat)
  | allocSubmit (id : Nat)
  deriving DecidableEq, Repr

/-- The per-command-buffer loop of `wgpu_queue_submit`
(src/device.rs:145-160): for each handle in order, `take` it from the
command-buffer registry, submit its raw buffer to `queues[0]`, then hand
it to the command allocator's submit tracking. -/
def submitLoop (dev : Device) (cbs : Registry CommandBuffer) :
    List Nat → Option (Device × Registry CommandBuffer) × List SubmitEvent
  | [] => (some (dev, cbs), [])
  | id :: rest =>
    match cbs.take id with
    | none => (none, [])
    | some (cb, cbs') =>
      let dev' : Device :=
        { dev with
          queueSubmitted := dev.queueSubmitted ++ [cb.raw]
          com_allocator := dev.com_allocator.submit cb }
      let tail := submitLoop dev' cbs' rest
      (tail.1, SubmitEvent.takeCmdBuf id :: SubmitEvent.submitRaw id ::
               SubmitEvent.allocSubmit id :: tail.2)

/-- Embeds `wgpu_queue_submit` (src/device.rs:134-160): resolves the queue handle
in the *device* registry (`get_mut`), then runs the submission loop and
writes the mutated device back. -/
def wgpu_queue_submit (s : WgpuState) (queue_id : Nat)
    (command_buffer_ptr : Nat → Nat) (command_buffer_count : Nat) :
    Option WgpuState × List SubmitEvent :=
  match s.devices.get queue_id with
  | none => (none, [])
  | some dev =>
    let ids := readArray command_buffer_ptr command_buffer_count
    let r := submitLoop dev s.commandBuffers ids
    match r.1 with
    | none => (none, r.2)
    | some (dev', cbs') =>
      (some { s with
          devices := s.devices.update queue_id dev'
          commandBuffers := cbs' }, r.2)

/-! ## Registry-lock acquisition orders

The embedding above passes state functionally, so the temporal order in
which each entry point acquires registry locks is transcribed here
directly from the source: one list per entry point, one element per
`.lock()`, `.get_mut()` or `.register()` call (each acquires that
registry's lock), in source order. -/

inductive RegistryName
  | device
  | bindGroupLayout
  | pipelineLayout
  | blendState
  | depthStencilState
  | shaderModule
  | attachmentState
  | renderPipeline
  | commandBuffer
  deriving DecidableEq, Repr

/-- src/device.rs:45 (`DEVICE_REGISTRY.lock`),
59 (`BIND_GROUP_LAYOUT_REGISTRY.register`). -/
def lockOrder_create_bind_group_layout : List RegistryName :=
  [RegistryName.device, RegistryName.bindGroupLayout]

/-- src/device.rs:69 (`BIND_GROUP_LAYOUT_REGISTRY.lock`),
75 (`DEVICE_REGISTRY.lock`), 79 (`PIPELINE_LAYOUT_REGISTRY.register`). -/
def lockOrder_create_pipeline_layout : List RegistryName :=
  [RegistryName.bindGroupLayout, RegistryName.device, RegistryName.pipelineLayout]

/-- src/device.rs:89 (`BLEND_STATE_REGISTRY.register`). -/
def lockOrder_create_blend_state : List RegistryName :=
  [RegistryName.blendState]

/-- src/device.rs:99 (`DEPTH_STENCIL_STATE_REGISTRY.register`). -/
def lockOrder_create_depth_stencil_state : List RegistryName :=
  [RegistryName.depthStencilState]

/-- src/device.rs:109 (`DEVICE_REGISTRY.lock`),
114 (`SHADER_MODULE_REGISTRY.register`). -/
def lockOrder_create_shader_module : List RegistryName :=
  [RegistryName.device, RegistryName.shaderModule]

/-- src/device.rs:122 (`DEVICE_REGISTRY.get_mut`),
124 (`COMMAND_BUFFER_REGISTRY.register`). -/
def lockOrder_create_command_buffer : List RegistryName :=
  [RegistryName.device, RegistryName.commandBuffer]

/-- src/device.rs:185 (`ATTACHMENT_STATE_REGISTRY.register`). -/
def lockOrder_create_attachment_state : List RegistryName :=
  [RegistryName.attachmentState]

/-- src/device.rs:199, 201, 204, 266, 277, 304 (`.lock()` calls) and 361
(`RENDER_PIPELINE_REGISTRY.register`). -/
def lockOrder_create_render_pipeline : List RegistryName :=
  [RegistryName.device, RegistryName.pipelineLayout, RegistryName.shaderModule,
   RegistryName.blendState, RegistryName.depthStencilState,
   RegistryName.attachmentState, RegistryName.renderPipeline]

/-- Device before dependents: no dependent-registry lock is acquired
before the device registry lock, i.e. the first acquisition is the device
lock (each entry point here acquires the device lock at most once). -/
def devicePrecedesDependents : List RegistryName → Bool
  | [] => true
  | RegistryName.device :: _ => true
  | _ :: _ => false

/-! ## Concrete fixtures -/

/-- A concrete backend for evaluating the entry points. -/
def exampleBackend : Backend :=
  { createDescriptorSetLayout := fun l => 1000 + l.length
    createPipelineLayout := fun l => 2000 + l.length
    createShaderModule := fun c => some (3000 + c.length)
    createRenderPass := fun a => 4000 + a.length
    createGraphicsPipeline := fun _ => some 5000 }

/-- A backend whose shader compilation is rejected. -/
def failingBackend : Backend :=
  { exampleBackend with createShaderModule := fun _ => none }

def exampleDevice : Device :=
  { raw := 0, queueSubmitted := [], com_allocator := ⟨[]⟩ }

/-- A state with one live object of each kind (handle 0) and two live
command buffers (handles 0 and 1). -/
def exampleState : WgpuState :=
  { devices := ⟨1, [(0, exampleDevice)]⟩
    bindGroupLayouts := ⟨1, [(0, ⟨10⟩)]⟩
    pipelineLayouts := ⟨1, [(0, ⟨20⟩)]⟩
    blendStates := ⟨1, [(0, ⟨⟨30⟩⟩)]⟩
    depthStencilStates := ⟨1, [(0, ⟨⟨40⟩⟩)]⟩
    shaderModules := ⟨1, [(0, ⟨50⟩)]⟩
    attachmentStates := ⟨1, [(0, ⟨[mkAttachment 7]⟩)]⟩
    renderPipelines := ⟨0, []⟩
    commandBuffers := ⟨2, [(0, ⟨60⟩), (1, ⟨61⟩)]⟩ }

/-- A well-formed render-pipeline descriptor over `exampleState`:
vertex + fragment stages on shader module 0, one blend state. -/
def exampleRPDesc : RenderPipelineDescriptor :=
  { layout := 0
    stages := fun i =>
      if i = 0 then ⟨0, ShaderStage.Vertex, "vs"⟩ else ⟨0, ShaderStage.Fragment, "fs"⟩
    stages_length := 2
    primitive_topology := 3
    blend_state := fun _ => 0
    blend_state_length := 1
    depth_stencil_state := 0
    attachment_state := 0 }

/-! ## Helper lemmas -/

theorem assocGet_cons_self {α : Type} (k : Nat) (v : α) (l : List (Nat × α)) :
    assocGet k ((k, v) :: l) = some v := by
  simp [assocGet]

theorem assocGet_filter_self {α : Type} (id : Nat) (l : List (Nat × α)) :
    assocGet id (l.filter (fun p => p.1 != id)) = none := by
  induction l with
  | nil => rfl
  | cons hd tl ih =>
    by_cases hk : hd.1 = id
    · simpa [List.filter_cons, hk] using ih
    · simp [List.filter_cons, hk, assocGet, ih]

theorem assocGet_filter_none {α : Type} (i j : Nat) (l : List (Nat × α))
    (h : assocGet i l = none) :
    assocGet i (l.filter (fun p => p.1 != j)) = none := by
  induction l with
  | nil => rfl
  | cons hd tl ih =>
    simp only [assocGet] at h
    by_cases hi : hd.1 = i
    · simp [hi] at h
    · have h' : assocGet i tl = none := by simpa [hi] using h
      by_cases hj : hd.1 = j
      · simp [List.filter_cons, hj, ih h']
      · simp [List.filter_cons, hj, assocGet, hi, ih h']

theorem Registry.take_get_self {α : Type} (r : Registry α) (id : Nat)
    (v : α) (r' : Registry α) (h : r.take id = some (v, r')) :
    r'.get id = none := by
  unfold Registry.take at h
  cases hg : assocGet id r.items with
  | none => rw [hg] at h; exact absurd h (by simp)
  | some w =>
    rw [hg] at h
    obtain ⟨-, hr⟩ := Prod.mk.injEq .. ▸ Option.some.inj h
    subst hr
    exact assocGet_filter_self id r.items

theorem Registry.take_preserves_none {α : Type} (r : Registry α) (i j : Nat)
    (v : α) (r' : Registry α) (h : r.take j = some (v, r'))
    (hi : r.get i = none) : r'.get i = none := by
  unfold Registry.take at h
  cases hg : assocGet j r.items with
  | none => rw [hg] at h; exact absurd h (by simp)
  | some w =>
    rw [hg] at h
    obtain ⟨-, hr⟩ := Prod.mk.injEq .. ▸ Option.some.inj h
    subst hr
    exact assocGet_filter_none i j r.items hi

theorem submitLoop_preserves_none (ids : List Nat) (dev : Device)
    (cbs : Registry CommandBuffer) (i : Nat) (hi : cbs.get i = none)
    (dev' : Device) (cbs' : Registry CommandBuffer)
    (h : (submitLoop dev cbs ids).1 = some (dev', cbs')) :
    cbs'.get i = none := by
  induction ids generalizing dev cbs with
  | nil =>
    have h' : (dev, cbs) = (dev', cbs') := Option.some.inj h
    obtain ⟨-, h2⟩ := Prod.mk.injEq .. ▸ h'
    exact h2 ▸ hi
  | cons id rest ih =>
    cases ht : cbs.take id with
    | none => simp [submitLoop, ht] at h
    | some pr =>
      obtain ⟨cb, cbs₂⟩ := pr
      simp only [submitLoop, ht] at h
      exact ih _ cbs₂ (Registry.take_preserves_none cbs i id cb cbs₂ ht hi) h

theorem submitLoop_removes (ids : List Nat) (dev : Device)
    (cbs : Registry CommandBuffer) (dev' : Device) (cbs' : Registry CommandBuffer)
    (h : (submitLoop dev cbs ids).1 = some (dev', cbs')) :
    ∀ i ∈ ids, cbs'.get i = none := by
  induction ids generalizing dev cbs with
  | nil => intro i hi; exact absurd hi (List.not_mem_nil i)
  | cons id rest ih =>
    intro i hi
    cases ht : cbs.take id with
    | none => simp [submitLoop, ht] at h
    | some pr =>
      obtain ⟨cb, cbs₂⟩ := pr
      simp only [submitLoop, ht] at h
      rcases List.mem_cons.mp hi with rfl | hmem
      · exact submitLoop_preserves_none rest _ cbs₂ i
          (Registry.take_get_self cbs i cb cbs₂ ht) dev' cbs' h
      · exact ih _ cbs₂ h i hmem

theorem submitLoop_trace (ids : List Nat) (dev : Device)
    (cbs : Registry CommandBuffer)
    (h : (submitLoop dev cbs ids).1.isSome = true) :
    (submitLoop dev cbs ids).2 =
      ids.flatMap (fun i => [SubmitEvent.takeCmdBuf i, SubmitEvent.submitRaw i,
                             SubmitEvent.allocSubmit i]) := by
  induction ids generalizing dev cbs with
  | nil => rfl
  | cons id rest ih =>
    cases ht : cbs.take id with
    | none => simp [submitLoop, ht] at h
    | some pr =>
      obtain ⟨cb, cbs₂⟩ := pr
      simp only [submitLoop, ht] at h ⊢
      rw [ih _ cbs₂ h]
      simp [List.flatMap_cons]

/-- C2: `wgpu_queue_submit` processes the command-buffer handles in the
given order — for each, first `take` from the command-buffer registry,
then raw submission to the queue, then hand-off to the command
allocator's submit tracking — and after a successful call none of the
given handles is live in the command-buffer registry. -/
theorem C2_queue_submit_order_and_removal (s : WgpuState) (q : Nat)
    (ptr : Nat → Nat) (n : Nat) (s' : WgpuState) (evs : List SubmitEvent)
    (h : wgpu_queue_submit s q ptr n = (some s', evs)) :
    evs = (readArray ptr n).flatMap
        (fun i => [SubmitEvent.takeCmdBuf i, SubmitEvent.submitRaw i,
                   SubmitEvent.allocSubmit i]) ∧
    ∀ i ∈ readArray ptr n, s'.commandBuffers.get i = none := by
  unfold wgpu_queue_submit at h
  cases hd : s.devices.get q with
  | none => rw [hd] at h; simp at h
  | some dev =>
    rw [hd] at h
    cases hr : (submitLoop dev s.commandBuffers (readArray ptr n)).1 with
    | none => simp only [hr] at h; simp at h
    | some pr =>
      obtain ⟨dev', cbs'⟩ := pr
      simp only [hr] at h
      rw [Prod.mk.injEq] at h
      obtain ⟨h1, h2⟩ := h
      have hs' : s' = { s with devices := s.devices.update q dev'
                               commandBuffers := cbs' } :=
        (Option.some.inj h1).symm
      constructor
      · rw [← h2]
        exact submitLoop_trace (readArray ptr n) dev s.commandBuffers
          (by rw [hr]; rfl)
      · intro i hi
        rw [hs']
        exact submitLoop_removes (readArray ptr n) dev s.commandBuffers
          dev' cbs' hr i hi

/-- The state after submitting command buffers 0 and 1 on `exampleState`:
both raw buffers are on the queue and in the allocator's submit tracking,
and the command-buffer registry is empty. -/
def exampleSubmittedState : WgpuState :=
  { exampleState with
    devices := ⟨1, [(0, { raw := 0, queueSubmitted := [60, 61],
                          com_allocator := ⟨[⟨60⟩, ⟨61⟩]⟩ })]⟩
    commandBuffers := ⟨2, []⟩ }

/-- C2 witness: a concrete successful submission of `[0, 1]`, with the
per-handle event order and both handles dead afterwards. -/
theorem C2_queue_submit_witness :
    wgpu_queue_submit exampleState 0 (fun i => i) 2 =
      (some exampleSubmittedState,
       [SubmitEvent.takeCmdBuf 0, SubmitEvent.submitRaw 0, SubmitEvent.allocSubmit 0,
        SubmitEvent.takeCmdBuf 1, SubmitEvent.submitRaw 1, SubmitEvent.allocSubmit 1]) ∧
    exampleSubmittedState.commandBuffers.get 0 = none ∧
    exampleSubmittedState.commandBuffers.get 1 = none := by
  have h : wgpu_queue_submit exampleState 0 (fun i => i) 2 =
      (some exampleSubmittedState,
       [SubmitEvent.takeCmdBuf 0, SubmitEvent.submitRaw 0, SubmitEvent.allocSubmit 0,
        SubmitEvent.takeCmdBuf 1, SubmitEvent.submitRaw 1, SubmitEvent.allocSubmit 1]) := by
    decide
  exact ⟨h,
    (C2_queue_submit_order_and_removal exampleState 0 (fun i => i) 2 _ _ h).2 0 (by decide),
    (C2_queue_submit_order_and_removal exampleState 0 (fun i => i) 2 _ _ h).2 1 (by decide)⟩

/-- C1 counterexample: `wgpu_device_create_pipeline_layout` acquires the
bind-group-layout (dependent) registry lock *before* the device registry
lock (src/device.rs:69 vs 75), so it does not acquire the device lock
first as the claim states. -/
theorem C1_pipeline_layout_lock_order_counterexample :
    lockOrder_create_pipeline_layout =
      [RegistryName.bindGroupLayout, RegistryName.device, RegistryName.pipelineLayout] ∧
    devicePrecedesDependents lockOrder_create_pipeline_layout = false := by
  decide

/-- C1 (amended): every externally invoked creation operation that locks
more than one registry acquires the device registry lock first, *except*
`wgpu_device_create_pipeline_layout`, which acquires the bind-group-layout
registry lock before the device registry lock; single-registry creation
operations lock only their output registry. -/
theorem C1_lock_order_amended :
    devicePrecedesDependents lockOrder_create_bind_group_layout = true ∧
    devicePrecedesDependents lockOrder_create_shader_module = true ∧
    devicePrecedesDependents lockOrder_create_command_buffer = true ∧
    devicePrecedesDependents lockOrder_create_render_pipeline = true ∧
    lockOrder_create_blend_state = [RegistryName.blendState] ∧
    lockOrder_create_depth_stencil_state = [RegistryName.depthStencilState] ∧
    lockOrder_create_attachment_state = [RegistryName.attachmentState] ∧
    lockOrder_create_pipeline_layout =
      [RegistryName.bindGroupLayout, RegistryName.device, RegistryName.pipelineLayout] ∧
    devicePrecedesDependents lockOrder_create_pipeline_layout = false := by
  decide

/-- A `Compute`-tagged stage reaches `unimplemented!()` in the stage loop
(src/device.rs:232): stage collection is fatal whenever any stage in the
list is tagged `Compute`. -/
theorem collectStages_compute_none (sm : Registry ShaderModule)
    (l : List PipelineStageDescriptor) (acc : Option EntryPoint × Option EntryPoint)
    (h : ∃ st ∈ l, st.stage = ShaderStage.Compute) :
    collectStages sm l acc = none := by
  induction l generalizing acc with
  | nil => obtain ⟨st, hst, -⟩ := h; exact absurd hst (List.not_mem_nil st)
  | cons hd tl ih =>
    obtain ⟨v, f⟩ := acc
    obtain ⟨st, hst, hc⟩ := h
    cases hm : sm.get hd.module with
    | none => simp [collectStages, hm]
    | some m =>
      rcases List.mem_cons.mp hst with rfl | hmem
      · simp [collectStages, hm, hc]
      · cases hs : hd.stage <;>
          simp [collectStages, hm, hs, ih _ ⟨st, hmem, hc⟩]

/-- Stage collection fills the vertex slot only from a `Vertex`-tagged
stage: with no vertex stage in the list, the slot keeps its input value. -/
theorem collectStages_vertex_slot (sm : Registry ShaderModule)
    (l : List PipelineStageDescriptor) (v0 f0 : Option EntryPoint)
    (v f : Option EntryPoint)
    (hnv : ∀ st ∈ l, st.stage ≠ ShaderStage.Vertex)
    (h : collectStages sm l (v0, f0) = some (v, f)) : v = v0 := by
  induction l generalizing v0 f0 f with
  | nil =>
    have h' := Option.some.inj h
    obtain ⟨h1, -⟩ := Prod.mk.injEq .. ▸ h'
    exact h1.symm
  | cons hd tl ih =>
    cases hm : sm.get hd.module with
    | none => simp [collectStages, hm] at h
    | some m =>
      cases hs : hd.stage with
      | Vertex => exact absurd hs (hnv hd (List.mem_cons_self hd tl))
      | Fragment =>
        simp only [collectStages, hm, hs] at h
        exact ih v0 _ _ (fun st hst => hnv st (List.mem_cons_of_mem hd hst)) h
      | Compute => simp [collectStages, hm, hs] at h

/-- C4: a render-pipeline creation call whose stages contain a stage
tagged `Compute` is fatal (`unimplemented!()`): no handle is returned, no
backend call is made, and the state — in particular the render-pipeline
registry — is unchanged. -/
theorem C4_compute_stage_fatal (B : Backend) (s : WgpuState) (d : Nat)
    (desc : RenderPipelineDescriptor)
    (h : ∃ st ∈ readArray desc.stages desc.stages_length,
           st.stage = ShaderStage.Compute) :
    wgpu_device_create_render_pipeline B s d desc = (none, s, []) := by
  have hc := collectStages_compute_none s.shaderModules
      (readArray desc.stages desc.stages_length) (none, none) h
  unfold wgpu_device_create_render_pipeline
  cases h1 : s.devices.get d with
  | none => rfl
  | some dev =>
    cases h2 : s.pipelineLayouts.get desc.layout with
    | none => rfl
    | some layout => simp [hc]

/-- A descriptor whose single stage is tagged `Compute`. -/
def computeStageDesc : RenderPipelineDescriptor :=
  { exampleRPDesc with
    stages := fun _ => ⟨0, ShaderStage.Compute, "cs"⟩
    stages_length := 1 }

/-- C4 witness: the concrete compute-stage call is rejected with no
handle and no registry change. -/
theorem C4_compute_stage_fatal_witness :
    (computeStageDesc.stages 0).stage = ShaderStage.Compute ∧
    wgpu_device_create_render_pipeline exampleBackend exampleState 0 computeStageDesc =
      (none, exampleState, []) :=
  ⟨rfl, C4_compute_stage_fatal exampleBackend exampleState 0 computeStageDesc (by decide)⟩

/-- C10: a render-pipeline creation call with no `Vertex`-tagged stage is
fatal (`vertex.unwrap()` on `None`, src/device.rs:237): no handle is
returned and the state is unchanged. -/
theorem C10_missing_vertex_stage_fatal (B : Backend) (s : WgpuState) (d : Nat)
    (desc : RenderPipelineDescriptor)
    (h : ∀ st ∈ readArray desc.stages desc.stages_length,
           st.stage ≠ ShaderStage.Vertex) :
    wgpu_device_create_render_pipeline B s d desc = (none, s, []) := by
  unfold wgpu_device_create_render_pipeline
  cases h1 : s.devices.get d with
  | none => rfl
  | some dev =>
  cases h2 : s.pipelineLayouts.get desc.layout with
  | none => rfl
  | some layout =>
  cases h3 : collectStages s.shaderModules
      (readArray desc.stages desc.stages_length) (none, none) with
  | none => rfl
  | some pr =>
    obtain ⟨v, f⟩ := pr
    have hv : v = none := collectStages_vertex_slot _ _ none none v f h h3
    subst hv
    rfl

/-- A descriptor whose single stage is tagged `Fragment` (no vertex
stage). -/
def fragmentOnlyDesc : RenderPipelineDescriptor :=
  { exampleRPDesc with
    stages := fun _ => ⟨0, ShaderStage.Fragment, "fs"⟩
    stages_length := 1 }

/-- C10 witness: the concrete vertex-less call is rejected with no handle
and no registry change. -/
theorem C10_missing_vertex_stage_fatal_witness :
    (fragmentOnlyDesc.stages 0).stage ≠ ShaderStage.Vertex ∧
    wgpu_device_create_render_pipeline exampleBackend exampleState 0 fragmentOnlyDesc =
      (none, exampleState, []) :=
  ⟨by decide, C10_missing_vertex_stage_fatal exampleBackend exampleState 0
      fragmentOnlyDesc (by decide)⟩

/-- C5: when the backend's `create_shader_module` fails, the call is
fatal (`.unwrap()`, src/device.rs:113): no shader-module handle is
returned and the state — in particular the shader-module registry — is
unchanged. -/
theorem C5_shader_module_backend_failure (B : Backend) (s : WgpuState) (d : Nat)
    (desc : ShaderModuleDescriptor)
    (h : B.createShaderModule (readArray desc.code.bytes desc.code.length) = none) :
    (wgpu_device_create_shader_module B s d desc).1 = none ∧
    (wgpu_device_create_shader_module B s d desc).2.1 = s := by
  unfold wgpu_device_create_shader_module
  cases h1 : s.devices.get d with
  | none => exact ⟨rfl, rfl⟩
  | some dev => simp [h]

def exampleSMDesc : ShaderModuleDescriptor := ⟨⟨fun i => i, 3⟩⟩

/-- C5 witness: a concrete rejected shader compilation yields no handle
and leaves the state unchanged. -/
theorem C5_shader_module_backend_failure_witness :
    failingBackend.createShaderModule
      (readArray exampleSMDesc.code.bytes exampleSMDesc.code.length) = none ∧
    (wgpu_device_create_shader_module failingBackend exampleState 0 exampleSMDesc).1 = none ∧
    (wgpu_device_create_shader_module failingBackend exampleState 0 exampleSMDesc).2.1 =
      exampleState :=
  ⟨rfl,
   (C5_shader_module_backend_failure failingBackend exampleState 0 exampleSMDesc rfl).1,
   (C5_shader_module_backend_failure failingBackend exampleState 0 exampleSMDesc rfl).2⟩

/-- C8: device→queue resolution is the identity on handles
(src/device.rs:131), and `wgpu_queue_submit` resolves its queue handle in
the *device* registry (src/device.rs:140): a dead device handle is fatal,
a live one is accepted (shown with an empty submission list). -/
theorem C8_queue_handle_is_device_handle (d : Nat)
    (s₁ : WgpuState) (q₁ : Nat) (ptr₁ : Nat → Nat) (n₁ : Nat)
    (s₂ : WgpuState) (q₂ : Nat) (ptr₂ : Nat → Nat) (dev : Device)
    (hdead : s₁.devices.get q₁ = none)
    (hlive : s₂.devices.get q₂ = some dev) :
    wgpu_device_get_queue d = d ∧
    (wgpu_queue_submit s₁ q₁ ptr₁ n₁).1 = none ∧
    (wgpu_queue_submit s₂ q₂ ptr₂ 0).1.isSome = true := by
  refine ⟨rfl, ?_, ?_⟩
  · unfold wgpu_queue_submit
    rw [hdead]
  · unfold wgpu_queue_submit
    rw [hlive]
    rfl

/-- C8 witness: handle 99 is not a live device, so submission on it is
fatal; handle 0 is a live device and is accepted as a queue handle. -/
theorem C8_queue_handle_is_device_handle_witness :
    Registry.get exampleState.devices 99 = none ∧
    Registry.get exampleState.devices 0 = some exampleDevice ∧
    wgpu_device_get_queue 5 = 5 ∧
    (wgpu_queue_submit exampleState 99 (fun i => i) 1).1 = none ∧
    (wgpu_queue_submit exampleState 0 (fun i => i) 0).1.isSome = true := by
  have h := C8_queue_handle_is_device_handle 5 exampleState 99 (fun i => i) 1
    exampleState 0 (fun i => i) exampleDevice (by decide) (by decide)
  exact ⟨by decide, by decide, h.1, h.2.1, h.2.2⟩

/-- The default used for positional access to backend binding lists. -/
def dflBinding : DescriptorSetLayoutBinding := ⟨0, ⟨0⟩, 0, ⟨0⟩, false⟩

/-- C9: on a successful `wgpu_device_create_bind_group_layout`, the
backend receives exactly `dslBindingsOf bindings`, whose element `k` has
`count` equal to the *total* number of bindings (src/device.rs:52) while
`binding`, `ty` and `stage_flags` come from descriptor element `k`. -/
theorem C9_descriptor_set_layout_binding_count (B : Backend) (s : WgpuState)
    (d : Nat) (desc : BindGroupLayoutDescriptor) (i : Nat) (s' : WgpuState)
    (tr : List BackendCall)
    (h : wgpu_device_create_bind_group_layout B s d desc = (some i, s', tr)) :
    tr = [BackendCall.createDescriptorSetLayout
            (dslBindingsOf (readArray desc.bindings desc.bindings_length))] ∧
    (dslBindingsOf (readArray desc.bindings desc.bindings_length)).length =
      desc.bindings_length ∧
    ∀ k, k < desc.bindings_length →
      (dslBindingsOf (readArray desc.bindings desc.bindings_length)).getD k dflBinding =
        { binding := (desc.bindings k).binding
          ty := map_binding_type (desc.bindings k).ty
          count := desc.bindings_length
          stage_flags := map_shader_stage_flags (desc.bindings k).visibility
          immutable_samplers := false } := by
  refine ⟨?_, ?_, ?_⟩
  · unfold wgpu_device_create_bind_group_layout at h
    cases h1 : s.devices.get d with
    | none => simp [h1] at h
    | some dev =>
      simp only [h1, Registry.register, Prod.mk.injEq] at h
      exact h.2.2.symm
  · simp [dslBindingsOf, readArray]
  · intro k hk
    simp [dslBindingsOf, readArray, List.getD, hk]

def exampleBGLDesc : BindGroupLayoutDescriptor :=
  ⟨fun i => ⟨i, i + 10, i + 20⟩, 2⟩

/-- C9 witness: the concrete two-binding call passes both backend
bindings with `count = 2` and per-element `binding`/`ty`/`stage_flags`. -/
theorem C9_descriptor_set_layout_binding_count_witness :
    wgpu_device_create_bind_group_layout exampleBackend exampleState 0 exampleBGLDesc =
      (some 1,
       (wgpu_device_create_bind_group_layout exampleBackend exampleState 0 exampleBGLDesc).2.1,
       [BackendCall.createDescriptorSetLayout
          [⟨0, ⟨10⟩, 2, ⟨20⟩, false⟩, ⟨1, ⟨11⟩, 2, ⟨21⟩, false⟩]]) ∧
    (dslBindingsOf (readArray exampleBGLDesc.bindings 2)).getD 0 dflBinding =
      ⟨0, ⟨10⟩, 2, ⟨20⟩, false⟩ ∧
    (dslBindingsOf (readArray exampleBGLDesc.bindings 2)).getD 1 dflBinding =
      ⟨1, ⟨11⟩, 2, ⟨21⟩, false⟩ := by
  have h : wgpu_device_create_bind_group_layout exampleBackend exampleState 0 exampleBGLDesc =
      (some 1,
       (wgpu_device_create_bind_group_layout exampleBackend exampleState 0 exampleBGLDesc).2.1,
       [BackendCall.createDescriptorSetLayout
          [⟨0, ⟨10⟩, 2, ⟨20⟩, false⟩, ⟨1, ⟨11⟩, 2, ⟨21⟩, false⟩]]) := by decide
  exact ⟨h,
    (C9_descriptor_set_layout_binding_count exampleBackend exampleState 0
      exampleBGLDesc 1 _ _ h).2.2 0 (by decide),
    (C9_descriptor_set_layout_binding_count exampleBackend exampleState 0
      exampleBGLDesc 1 _ _ h).2.2 1 (by decide)⟩

/-- C6: the attachment-state registry entry created by
`wgpu_device_create_attachment_state` holds one attachment per descriptor
format, in order, with the mapped format (src/device.rs:166-184); and a
successful `wgpu_device_create_render_pipeline` builds its render pass
from exactly the attachments stored in the attachment-state registry
under `desc.attachment_state` (src/device.rs:304-326). -/
theorem C6_render_pass_from_attachment_state (s : WgpuState) (d : Nat)
    (ad : AttachmentStateDescriptor) (hid : Nat) (s₁ : WgpuState)
    (t : List BackendCall) (B : Backend) (s' : WgpuState) (d' : Nat)
    (rpd : RenderPipelineDescriptor) (i : Nat) (s₂ : WgpuState)
    (tr : List BackendCall) (as : AttachmentState)
    (hA : wgpu_device_create_attachment_state s d ad = (some hid, s₁, t))
    (hR : wgpu_device_create_render_pipeline B s' d' rpd = (some i, s₂, tr))
    (hAS : s'.attachmentStates.get rpd.attachment_state = some as) :
    s₁.attachmentStates.get hid =
      some ⟨(readArray ad.formats ad.formats_length).map mkAttachment⟩ ∧
    ∃ pd, tr = [BackendCall.createRenderPass as.raw,
                BackendCall.createGraphicsPipeline pd] := by
  constructor
  · unfold wgpu_device_create_attachment_state at hA
    simp only [Registry.register, Prod.mk.injEq, Option.some.injEq] at hA
    obtain ⟨hid_eq, hs₁, -⟩ := hA
    rw [← hs₁, ← hid_eq]
    simp [Registry.get, assocGet]
  · unfold wgpu_device_create_render_pipeline at hR
    cases h1 : s'.devices.get d' with
    | none => simp [h1] at hR
    | some dev =>
    simp only [h1] at hR
    cases h2 : s'.pipelineLayouts.get rpd.layout with
    | none => simp [h2] at hR
    | some layout =>
    simp only [h2] at hR
    cases h3 : collectStages s'.shaderModules
        (readArray rpd.stages rpd.stages_length) (none, none) with
    | none => simp [h3] at hR
    | some pr =>
    obtain ⟨vs, fr⟩ := pr
    simp only [h3] at hR
    cases vs with
    | none => simp at hR
    | some vertex =>
    cases h5 : collectAll (fun j => s'.blendStates.get j)
        (readArray rpd.blend_state rpd.blend_state_length) with
    | none => simp [h5] at hR
    | some blends =>
    simp only [h5] at hR
    cases h6 : s'.depthStencilStates.get rpd.depth_stencil_state with
    | none => simp [h6] at hR
    | some ds =>
    simp only [h6] at hR
    simp only [hAS] at hR
    split at hR
    · simp at hR
    · simp only [Prod.mk.injEq] at hR
      exact ⟨_, hR.2.2.symm⟩

def exampleASDesc : AttachmentStateDescriptor := ⟨fun i => 7 + i, 1⟩

/-- The state `exampleState` after registering the attachment state for format 7. -/
def stateAfterAS : WgpuState :=
  { exampleState with
    attachmentStates := ⟨2, [(1, ⟨[mkAttachment 7]⟩), (0, ⟨[mkAttachment 7]⟩)]⟩ }

def exampleRPDesc1 : RenderPipelineDescriptor :=
  { exampleRPDesc with attachment_state := 1 }

/-- The graphics-pipeline descriptor assembled for `exampleRPDesc1` over
`stateAfterAS`. -/
def examplePipelineDesc : GraphicsPipelineDesc :=
  { shaders := { vertex := ⟨"vs", 50⟩, hull := none, domain := none,
                 geometry := none, fragment := some ⟨"fs", 50⟩ }
    primitive := ⟨3⟩
    blendTargets := [⟨30⟩]
    depth_stencil := ⟨40⟩
    layout := 20
    renderPass := 4001 }

/-- C6 witness: the concrete attachment state holds one attachment for
format 7, and the concrete render-pipeline creation calls the backend
with exactly that attachment list as the render pass. -/
theorem C6_render_pass_from_attachment_state_witness :
    wgpu_device_create_attachment_state exampleState 0 exampleASDesc =
      (some 1, stateAfterAS, []) ∧
    wgpu_device_create_render_pipeline exampleBackend stateAfterAS 0 exampleRPDesc1 =
      (some 0,
       (wgpu_device_create_render_pipeline exampleBackend stateAfterAS 0 exampleRPDesc1).2.1,
       [BackendCall.createRenderPass [mkAttachment 7],
        BackendCall.createGraphicsPipeline examplePipelineDesc]) ∧
    stateAfterAS.attachmentStates.get 1 = some ⟨[mkAttachment 7]⟩ := by
  have hA : wgpu_device_create_attachment_state exampleState 0 exampleASDesc =
      (some 1, stateAfterAS, []) := by decide
  have hR : wgpu_device_create_render_pipeline exampleBackend stateAfterAS 0 exampleRPDesc1 =
      (some 0,
       (wgpu_device_create_render_pipeline exampleBackend stateAfterAS 0 exampleRPDesc1).2.1,
       [BackendCall.createRenderPass [mkAttachment 7],
        BackendCall.createGraphicsPipeline examplePipelineDesc]) := by decide
  have hAS : stateAfterAS.attachmentStates.get 1 = some ⟨[mkAttachment 7]⟩ := by decide
  exact ⟨hA, hR,
    (C6_render_pass_from_attachment_state exampleState 0 exampleASDesc 1 stateAfterAS []
      exampleBackend stateAfterAS 0 exampleRPDesc1 0 _ _ ⟨[mkAttachment 7]⟩ hA hR hAS).1⟩

/-- Reads of `slice::from_raw_parts(ptr, len)` touch only offsets below `len`:
pointers agreeing below `len` read to the same array. -/
theorem readArray_congr {α : Type} (p p' : Nat → α) (n : Nat)
    (h : ∀ i < n, p i = p' i) : readArray p n = readArray p' n := by
  unfold readArray
  induction n with
  | zero => rfl
  | succ m ih =>
    rw [List.range_succ, List.map_append, List.map_append,
      ih (fun i hi => h i (Nat.lt_succ_of_lt hi))]
    simp [h m (Nat.lt_succ_self m)]

/-- C7: every entry point reads its `(pointer, length)` array arguments
only below `length` — bind-group-layout bindings, pipeline-layout
bind-group-layouts, shader byte code, attachment-state formats,
render-pipeline stages and blend states, and queue-submit command-buffer
ids: the result is unchanged when the pointer is replaced by any pointer
agreeing on the first `length` offsets. -/
theorem C7_arrays_read_within_length (B : Backend) (s : WgpuState) (d : Nat)
    (pB pB' : Nat → BindGroupLayoutBinding) (nB : Nat)
    (pL pL' : Nat → Nat) (nL : Nat)
    (pC pC' : Nat → Nat) (nC : Nat)
    (pF pF' : Nat → Nat) (nF : Nat)
    (lay : Nat) (pS pS' : Nat → PipelineStageDescriptor) (nS : Nat) (top : Nat)
    (pBl pBl' : Nat → Nat) (nBl : Nat) (dss att : Nat)
    (pQ pQ' : Nat → Nat) (nQ : Nat)
    (hB : ∀ i < nB, pB i = pB' i) (hL : ∀ i < nL, pL i = pL' i)
    (hC : ∀ i < nC, pC i = pC' i) (hF : ∀ i < nF, pF i = pF' i)
    (hS : ∀ i < nS, pS i = pS' i) (hBl : ∀ i < nBl, pBl i = pBl' i)
    (hQ : ∀ i < nQ, pQ i = pQ' i) :
    wgpu_device_create_bind_group_layout B s d ⟨pB, nB⟩ =
      wgpu_device_create_bind_group_layout B s d ⟨pB', nB⟩ ∧
    wgpu_device_create_pipeline_layout B s d ⟨pL, nL⟩ =
      wgpu_device_create_pipeline_layout B s d ⟨pL', nL⟩ ∧
    wgpu_device_create_shader_module B s d ⟨⟨pC, nC⟩⟩ =
      wgpu_device_create_shader_module B s d ⟨⟨pC', nC⟩⟩ ∧
    wgpu_device_create_attachment_state s d ⟨pF, nF⟩ =
      wgpu_device_create_attachment_state s d ⟨pF', nF⟩ ∧
    wgpu_device_create_render_pipeline B s d ⟨lay, pS, nS, top, pBl, nBl, dss, att⟩ =
      wgpu_device_create_render_pipeline B s d ⟨lay, pS', nS, top, pBl', nBl, dss, att⟩ ∧
    wgpu_queue_submit s d pQ nQ = wgpu_queue_submit s d pQ' nQ := by
  refine ⟨?_, ?_, ?_, ?_, ?_, ?_⟩
  · unfold wgpu_device_create_bind_group_layout
    rw [readArray_congr pB pB' nB hB]
  · unfold wgpu_device_create_pipeline_layout
    rw [readArray_congr pL pL' nL hL]
  · unfold wgpu_device_create_shader_module
    rw [readArray_congr pC pC' nC hC]
  · unfold wgpu_device_create_attachment_state
    rw [readArray_congr pF pF' nF hF]
  · unfold wgpu_device_create_render_pipeline
    rw [readArray_congr pS pS' nS hS, readArray_congr pBl pBl' nBl hBl]
  · unfold wgpu_queue_submit
    rw [readArray_congr pQ pQ' nQ hQ]

/-- C7 witness: concrete pointer pairs that agree below the length but
differ above it produce identical results. -/
theorem C7_arrays_read_within_length_witness :
    wgpu_device_create_bind_group_layout exampleBackend exampleState 0
        ⟨fun i => ⟨i, i + 10, i + 20⟩, 2⟩ =
      wgpu_device_create_bind_group_layout exampleBackend exampleState 0
        ⟨fun i => if i < 2 then ⟨i, i + 10, i + 20⟩ else ⟨99, 99, 99⟩, 2⟩ ∧
    wgpu_queue_submit exampleState 0 (fun i => i) 2 =
      wgpu_queue_submit exampleState 0 (fun i => if i < 2 then i else 99) 2 := by
  have h := C7_arrays_read_within_length exampleBackend exampleState 0
    (fun i => ⟨i, i + 10, i + 20⟩)
    (fun i => if i < 2 then ⟨i, i + 10, i + 20⟩ else ⟨99, 99, 99⟩) 2
    (fun _ => 0) (fun _ => 0) 0 (fun i => i) (fun i => i) 3
    (fun i => 7 + i) (fun i => 7 + i) 1 0
    exampleRPDesc.stages exampleRPDesc.stages 2 3 (fun _ => 0) (fun _ => 0) 1 0 0
    (fun i => i) (fun i => if i < 2 then i else 99) 2
    (by decide) (fun i _ => rfl) (fun i _ => rfl) (fun i _ => rfl)
    (fun i _ => rfl) (fun i _ => rfl) (by decide)
  exact ⟨h.1, h.2.2.2.2.2⟩

/-- C3 counterexample: `wgpu_device_create_blend_state` succeeds (returns
a handle and registers an entry) while making *zero* backend creation
calls — it is a pure `conv` mapping plus `register` (src/device.rs:84-92)
— so "every external creation call invokes exactly one backend creation
call" fails. -/
theorem C3_blend_state_no_backend_call_counterexample :
    (wgpu_device_create_blend_state exampleState 0 5).1 = some 1 ∧
    (wgpu_device_create_blend_state exampleState 0 5).2.2 = [] ∧
    (wgpu_device_create_blend_state exampleState 0 5).2.2.length ≠ 1 := by
  decide

/-- Shape of a successful `wgpu_device_create_bind_group_layout`. -/
theorem create_bind_group_layout_success_shape (B : Backend) (s : WgpuState)
    (d : Nat) (desc : BindGroupLayoutDescriptor) (i : Nat) (s' : WgpuState)
    (tr : List BackendCall)
    (h : wgpu_device_create_bind_group_layout B s d desc = (some i, s', tr)) :
    tr.length = 1 ∧ i = s.bindGroupLayouts.next ∧
    ∃ v, s' = { s with bindGroupLayouts := (s.bindGroupLayouts.register v).2 } := by
  unfold wgpu_device_create_bind_group_layout at h
  cases h1 : s.devices.get d with
  | none => simp [h1] at h
  | some dev =>
    simp only [h1, Registry.register, Prod.mk.injEq, Option.some.injEq] at h
    obtain ⟨hi, hs, htr⟩ := h
    exact ⟨by simp [← htr], hi.symm, ⟨_, by rw [← hs]; rfl⟩⟩

/-- Shape of a successful `wgpu_device_create_pipeline_layout`. -/
theorem create_pipeline_layout_success_shape (B : Backend) (s : WgpuState)
    (d : Nat) (desc : PipelineLayoutDescriptor) (i : Nat) (s' : WgpuState)
    (tr : List BackendCall)
    (h : wgpu_device_create_pipeline_layout B s d desc = (some i, s', tr)) :
    tr.length = 1 ∧ i = s.pipelineLayouts.next ∧
    ∃ v, s' = { s with pipelineLayouts := (s.pipelineLayouts.register v).2 } := by
  unfold wgpu_device_create_pipeline_layout at h
  cases h1 : collectAll (fun j => s.bindGroupLayouts.get j)
      (readArray desc.bind_group_layouts desc.bind_group_layouts_length) with
  | none => simp [h1] at h
  | some layouts =>
    simp only [h1] at h
    cases h2 : s.devices.get d with
    | none => simp [h2] at h
    | some dev =>
      simp only [h2, Registry.register, Prod.mk.injEq, Option.some.injEq] at h
      obtain ⟨hi, hs, htr⟩ := h
      exact ⟨by simp [← htr], hi.symm, ⟨_, by rw [← hs]; rfl⟩⟩

/-- Shape of a successful `wgpu_device_create_shader_module`. -/
theorem create_shader_module_success_shape (B : Backend) (s : WgpuState)
    (d : Nat) (desc : ShaderModuleDescriptor) (i : Nat) (s' : WgpuState)
    (tr : List BackendCall)
    (h : wgpu_device_create_shader_module B s d desc = (some i, s', tr)) :
    tr.length = 1 ∧ i = s.shaderModules.next ∧
    ∃ v, s' = { s with shaderModules := (s.shaderModules.register v).2 } := by
  unfold wgpu_device_create_shader_module at h
  cases h1 : s.devices.get d with
  | none => simp [h1] at h
  | some dev =>
    simp only [h1] at h
    cases h2 : B.createShaderModule (readArray desc.code.bytes desc.code.length) with
    | none => simp [h2] at h
    | some raw =>
      simp only [h2, Registry.register, Prod.mk.injEq, Option.some.injEq] at h
      obtain ⟨hi, hs, htr⟩ := h
      exact ⟨by simp [← htr], hi.symm, ⟨_, by rw [← hs]; rfl⟩⟩

/-- Shape of a successful `wgpu_device_create_render_pipeline`: exactly
two backend creation calls (render pass, then graphics pipeline) and
exactly one new render-pipeline registry entry. -/
theorem create_render_pipeline_success_shape (B : Backend) (s : WgpuState)
    (d : Nat) (desc : RenderPipelineDescriptor) (i : Nat) (s' : WgpuState)
    (tr : List BackendCall)
    (h : wgpu_device_create_render_pipeline B s d desc = (some i, s', tr)) :
    tr.length = 2 ∧ i = s.renderPipelines.next ∧
    ∃ v, s' = { s with renderPipelines := (s.renderPipelines.register v).2 } := by
  unfold wgpu_device_create_render_pipeline at h
  cases c1 : s.devices.get d with
  | none => simp [c1] at h
  | some dev =>
  simp only [c1] at h
  cases c2 : s.pipelineLayouts.get desc.layout with
  | none => simp [c2] at h
  | some layout =>
  simp only [c2] at h
  cases c3 : collectStages s.shaderModules
      (readArray desc.stages desc.stages_length) (none, none) with
  | none => simp [c3] at h
  | some pr =>
  obtain ⟨vs, fr⟩ := pr
  simp only [c3] at h
  cases vs with
  | none => simp at h
  | some vertex =>
  cases c5 : collectAll (fun j => s.blendStates.get j)
      (readArray desc.blend_state desc.blend_state_length) with
  | none => simp [c5] at h
  | some blends =>
  simp only [c5] at h
  cases c6 : s.depthStencilStates.get desc.depth_stencil_state with
  | none => simp [c6] at h
  | some ds =>
  simp only [c6] at h
  cases c7 : s.attachmentStates.get desc.attachment_state with
  | none => simp [c7] at h
  | some attachState =>
  simp only [c7] at h
  split at h
  · simp at h
  · simp only [Registry.register, Prod.mk.injEq, Option.some.injEq] at h
    obtain ⟨hi, hs, htr⟩ := h
    exact ⟨by simp [← htr], hi.symm, ⟨_, by rw [← hs]; rfl⟩⟩

/-- A fatal `wgpu_device_create_bind_group_layout` leaves the state
unchanged. -/
theorem create_bind_group_layout_failure_state (B : Backend) (s : WgpuState)
    (d : Nat) (desc : BindGroupLayoutDescriptor) (s' : WgpuState)
    (tr : List BackendCall)
    (h : wgpu_device_create_bind_group_layout B s d desc = (none, s', tr)) :
    s' = s := by
  unfold wgpu_device_create_bind_group_layout at h
  cases c1 : s.devices.get d with
  | none =>
    simp only [c1, Prod.mk.injEq] at h
    exact h.2.1.symm
  | some dev => simp [c1, Registry.register] at h

/-- A fatal `wgpu_device_create_pipeline_layout` leaves the state
unchanged. -/
theorem create_pipeline_layout_failure_state (B : Backend) (s : WgpuState)
    (d : Nat) (desc : PipelineLayoutDescriptor) (s' : WgpuState)
    (tr : List BackendCall)
    (h : wgpu_device_create_pipeline_layout B s d desc = (none, s', tr)) :
    s' = s := by
  unfold wgpu_device_create_pipeline_layout at h
  cases c1 : collectAll (fun j => s.bindGroupLayouts.get j)
      (readArray desc.bind_group_layouts desc.bind_group_layouts_length) with
  | none =>
    simp only [c1, Prod.mk.injEq] at h
    exact h.2.1.symm
  | some layouts =>
    simp only [c1] at h
    cases c2 : s.devices.get d with
    | none =>
      simp only [c2, Prod.mk.injEq] at h
      exact h.2.1.symm
    | some dev => simp [c2, Registry.register] at h

/-- A fatal `wgpu_device_create_shader_module` leaves the state
unchanged. -/
theorem create_shader_module_failure_state (B : Backend) (s : WgpuState)
    (d : Nat) (desc : ShaderModuleDescriptor) (s' : WgpuState)
    (tr : List BackendCall)
    (h : wgpu_device_create_shader_module B s d desc = (none, s', tr)) :
    s' = s := by
  unfold wgpu_device_create_shader_module at h
  cases c1 : s.devices.get d with
  | none =>
    simp only [c1, Prod.mk.injEq] at h
    exact h.2.1.symm
  | some dev =>
    simp only [c1] at h
    cases c2 : B.createShaderModule (readArray desc.code.bytes desc.code.length) with
    | none =>
      simp only [c2, Prod.mk.injEq] at h
      exact h.2.1.symm
    | some raw => simp [c2, Registry.register] at h

/-- A fatal `wgpu_device_create_render_pipeline` leaves the state
unchanged. -/
theorem create_render_pipeline_failure_state (B : Backend) (s : WgpuState)
    (d : Nat) (desc : RenderPipelineDescriptor) (s' : WgpuState)
    (tr : List BackendCall)
    (h : wgpu_device_create_render_pipeline B s d desc = (none, s', tr)) :
    s' = s := by
  unfold wgpu_device_create_render_pipeline at h
  cases c1 : s.devices.get d with
  | none =>
    simp only [c1, Prod.mk.injEq] at h
    exact h.2.1.symm
  | some dev =>
  simp only [c1] at h
  cases c2 : s.pipelineLayouts.get desc.layout with
  | none =>
    simp only [c2, Prod.mk.injEq] at h
    exact h.2.1.symm
  | some layout =>
  simp only [c2] at h
  cases c3 : collectStages s.shaderModules
      (readArray desc.stages desc.stages_length) (none, none) with
  | none =>
    simp only [c3, Prod.mk.injEq] at h
    exact h.2.1.symm
  | some pr =>
  obtain ⟨vs, fr⟩ := pr
  simp only [c3] at h
  cases vs with
  | none =>
    simp only [Prod.mk.injEq] at h
    exact h.2.1.symm
  | some vertex =>
  cases c5 : collectAll (fun j => s.blendStates.get j)
      (readArray desc.blend_state desc.blend_state_length) with
  | none =>
    simp only [c5, Prod.mk.injEq] at h
    exact h.2.1.symm
  | some blends =>
  simp only [c5] at h
  cases c6 : s.depthStencilStates.get desc.depth_stencil_state with
  | none =>
    simp only [c6, Prod.mk.injEq] at h
    exact h.2.1.symm
  | some ds =>
  simp only [c6] at h
  cases c7 : s.attachmentStates.get desc.attachment_state with
  | none =>
    simp only [c7, Prod.mk.injEq] at h
    exact h.2.1.symm
  | some attachState =>
  simp only [c7] at h
  split at h
  · simp only [Prod.mk.injEq] at h
    exact h.2.1.symm
  · simp [Registry.register, Prod.mk.injEq] at h

/-- C3 (amended): bind-group-layout, pipeline-layout and shader-module
creation each invoke exactly one backend creation call; blend-state,
depth-stencil-state and attachment-state creation invoke none (pure data
mapping plus register); render-pipeline creation invokes exactly two
(render pass, then graphics pipeline).  In all seven cases, success adds
exactly one new entry (at the fresh handle) to the output registry and
changes nothing else; a fatal call leaves the state unchanged, so no
partial result is ever visible. -/
theorem C3_creation_atomicity_amended (B : Backend) (s : WgpuState) (d : Nat)
    (bglD : BindGroupLayoutDescriptor) (plD : PipelineLayoutDescriptor)
    (bsD dsD : Nat) (smD : ShaderModuleDescriptor)
    (asD : AttachmentStateDescriptor) (rpD : RenderPipelineDescriptor)
    (i1 i2 i3 i4 i5 i6 i7 : Nat) (t1 t2 t3 t4 t5 t6 t7 : WgpuState)
    (r1 r2 r3 r4 r5 r6 r7 : List BackendCall)
    (B' : Backend) (d' : Nat) (bglD' : BindGroupLayoutDescriptor)
    (plD' : PipelineLayoutDescriptor) (smD' : ShaderModuleDescriptor)
    (rpD' : RenderPipelineDescriptor)
    (u1 u2 u3 u4 : WgpuState) (v1 v2 v3 v4 : List BackendCall)
    (h1 : wgpu_device_create_bind_group_layout B s d bglD = (some i1, t1, r1))
    (h2 : wgpu_device_create_pipeline_layout B s d plD = (some i2, t2, r2))
    (h3 : wgpu_device_create_blend_state s d bsD = (some i3, t3, r3))
    (h4 : wgpu_device_create_depth_stencil_state s d dsD = (some i4, t4, r4))
    (h5 : wgpu_device_create_shader_module B s d smD = (some i5, t5, r5))
    (h6 : wgpu_device_create_attachment_state s d asD = (some i6, t6, r6))
    (h7 : wgpu_device_create_render_pipeline B s d rpD = (some i7, t7, r7))
    (g1 : wgpu_device_create_bind_group_layout B' s d' bglD' = (none, u1, v1))
    (g2 : wgpu_device_create_pipeline_layout B' s d' plD' = (none, u2, v2))
    (g3 : wgpu_device_create_shader_module B' s d' smD' = (none, u3, v3))
    (g4 : wgpu_device_create_render_pipeline B' s d' rpD' = (none, u4, v4)) :
    (r1.length = 1 ∧ i1 = s.bindGroupLayouts.next ∧
     ∃ v, t1 = { s with bindGroupLayouts := (s.bindGroupLayouts.register v).2 }) ∧
    (r2.length = 1 ∧ i2 = s.pipelineLayouts.next ∧
     ∃ v, t2 = { s with pipelineLayouts := (s.pipelineLayouts.register v).2 }) ∧
    (r3 = [] ∧ i3 = s.blendStates.next ∧
     ∃ v, t3 = { s with blendStates := (s.blendStates.register v).2 }) ∧
    (r4 = [] ∧ i4 = s.depthStencilStates.next ∧
     ∃ v, t4 = { s with depthStencilStates := (s.depthStencilStates.register v).2 }) ∧
    (r5.length = 1 ∧ i5 = s.shaderModules.next ∧
     ∃ v, t5 = { s with shaderModules := (s.shaderModules.register v).2 }) ∧
    (r6 = [] ∧ i6 = s.attachmentStates.next ∧
     ∃ v, t6 = { s with attachmentStates := (s.attachmentStates.register v).2 }) ∧
    (r7.length = 2 ∧ i7 = s.renderPipelines.next ∧
     ∃ v, t7 = { s with renderPipelines := (s.renderPipelines.register v).2 }) ∧
    u1 = s ∧ u2 = s ∧ u3 = s ∧ u4 = s := by
  refine ⟨create_bind_group_layout_success_shape B s d bglD i1 t1 r1 h1,
    create_pipeline_layout_success_shape B s d plD i2 t2 r2 h2,
    ?_, ?_,
    create_shader_module_success_shape B s d smD i5 t5 r5 h5,
    ?_,
    create_render_pipeline_success_shape B s d rpD i7 t7 r7 h7,
    create_bind_group_layout_failure_state B' s d' bglD' u1 v1 g1,
    create_pipeline_layout_failure_state B' s d' plD' u2 v2 g2,
    create_shader_module_failure_state B' s d' smD' u3 v3 g3,
    create_render_pipeline_failure_state B' s d' rpD' u4 v4 g4⟩
  · unfold wgpu_device_create_blend_state at h3
    simp only [Registry.register, Prod.mk.injEq, Option.some.injEq] at h3
    obtain ⟨hi, hs, htr⟩ := h3
    exact ⟨htr.symm, hi.symm, ⟨_, by rw [← hs]; rfl⟩⟩
  · unfold wgpu_device_create_depth_stencil_state at h4
    simp only [Registry.register, Prod.mk.injEq, Option.some.injEq] at h4
    obtain ⟨hi, hs, htr⟩ := h4
    exact ⟨htr.symm, hi.symm, ⟨_, by rw [← hs]; rfl⟩⟩
  · unfold wgpu_device_create_attachment_state at h6
    simp only [Registry.register, Prod.mk.injEq, Option.some.injEq] at h6
    obtain ⟨hi, hs, htr⟩ := h6
    exact ⟨htr.symm, hi.symm, ⟨_, by rw [← hs]; rfl⟩⟩

/-- C3 witness: a concrete successful creation of each of the seven
kinds, plus concrete fatal calls of the four fallible kinds, instantiate
the amended atomicity statement. -/
theorem C3_creation_atomicity_amended_witness :
    (wgpu_device_create_bind_group_layout exampleBackend exampleState 0
        exampleBGLDesc).2.2.length = 1 ∧
    (wgpu_device_create_blend_state exampleState 0 5).2.2 = [] ∧
    (wgpu_device_create_render_pipeline exampleBackend exampleState 0
        exampleRPDesc).2.2.length = 2 ∧
    (wgpu_device_create_bind_group_layout failingBackend exampleState 99
        exampleBGLDesc).2.1 = exampleState := by
  have h := C3_creation_atomicity_amended exampleBackend exampleState 0
    exampleBGLDesc ⟨fun _ => 0, 1⟩ 5 6 exampleSMDesc exampleASDesc exampleRPDesc
    1 1 1 1 1 1 0
    (wgpu_device_create_bind_group_layout exampleBackend exampleState 0 exampleBGLDesc).2.1
    (wgpu_device_create_pipeline_layout exampleBackend exampleState 0 ⟨fun _ => 0, 1⟩).2.1
    (wgpu_device_create_blend_state exampleState 0 5).2.1
    (wgpu_device_create_depth_stencil_state exampleState 0 6).2.1
    (wgpu_device_create_shader_module exampleBackend exampleState 0 exampleSMDesc).2.1
    (wgpu_device_create_attachment_state exampleState 0 exampleASDesc).2.1
    (wgpu_device_create_render_pipeline exampleBackend exampleState 0 exampleRPDesc).2.1
    (wgpu_device_create_bind_group_layout exampleBackend exampleState 0 exampleBGLDesc).2.2
    (wgpu_device_create_pipeline_layout exampleBackend exampleState 0 ⟨fun _ => 0, 1⟩).2.2
    (wgpu_device_create_blend_state exampleState 0 5).2.2
    (wgpu_device_create_depth_stencil_state exampleState 0 6).2.2
    (wgpu_device_create_shader_module exampleBackend exampleState 0 exampleSMDesc).2.2
    (wgpu_device_create_attachment_state exampleState 0 exampleASDesc).2.2
    (wgpu_device_create_render_pipeline exampleBackend exampleState 0 exampleRPDesc).2.2
    failingBackend 99 exampleBGLDesc ⟨fun _ => 99, 1⟩ exampleSMDesc exampleRPDesc
    exampleState exampleState exampleState exampleState [] [] [] []
    (by decide) (by decide) (by decide) (by decide) (by decide) (by decide)
    (by decide) (by decide) (by decide) (by decide) (by decide)
  exact ⟨h.1.1, h.2.2.1.1, h.2.2.2.2.2.2.1.1, h.2.2.2.2.2.2.2.1⟩

end Wgpu
